import Mathlib

/-!
Verification model of the `electron-printer` bridge (`src/main.js`).

The application keeps a mutable printer registry (`printers`,
`settings.selectedPrinter`), refreshes it from the OS printer enumeration,
and serves an HTTP API whose `/print` endpoint validates a URL, resolves a
target printer, downloads a PDF into a fresh temporary directory, submits it
to the OS print capability and cleans the directory up.

The embedding below is a shallow one:

* JavaScript strings are Lean `String`s; helper functions (`jsTrim`,
  `isHttpUrl`, `parseIntJs`, `jsStrOr`) reproduce the JS string operations
  used by the source (`String.prototype.trim`, the `/^https?:\/\//i` regex
  test, `Number.parseInt(-, 10)`, the `a || b || ''` truthiness chain).
* The mutable module state (`printers`, `settings.selectedPrinter`, and the
  presence of the hidden window used for enumeration) is `AppState`.
* Side effects (settings persistence, tray refresh, desktop notifications,
  logging, and calls to the enumeration / download / print capabilities)
  are recorded in an ordered `Effect` trace.
* The filesystem is modelled at the granularity the program uses for its
  cleanup guarantee: the set of existing temporary directories (`Fs`).
  `fs.promises.rm(dir, { recursive: true, force: true })` removes the
  directory with its contents and never fails on a missing directory.
* Nondeterministic capability outcomes (fetch result, `mkdtemp` name and
  possible failure, `writeFile` failure, print submission outcome, printer
  enumeration outcome) are supplied by explicit environment records.
* JSON request field values are `JVal` (numbers restricted to integers,
  which covers every integral `copies` value a client can send).
-/

/-- JSON-ish value for request body fields. -/
inductive JVal where
  | jnull
  | jstr (s : String)
  | jnum (n : Int)
  | jbool (b : Bool)
  deriving Repr, DecidableEq

/-- A printer entry as returned by `webContents.getPrintersAsync()`.
`displayName` is `none` when the OS omits the field (`undefined`). -/
structure Printer where
  name : String
  displayName : Option String
  isDefault : Bool
  deriving Repr, DecidableEq

/-- Mutable module state of `main.js`: the cached printer list, the
persisted `settings.selectedPrinter` (`none` models JS `null`), and whether
`hiddenWindow` is non-null (required by `refreshPrinters`). -/
structure AppState where
  printers : List Printer
  selectedPrinter : Option String
  hiddenWindow : Bool
  deriving Repr, DecidableEq

/-- Observable side effects, in program order.  `enumeratePrinters`,
`downloadAttempt` and `printSubmit` record the calls made to the OS
enumeration capability, `downloadPdf`, and the `print` capability. -/
inductive Effect where
  | persistWrite (selected : Option String)
  | trayUpdate
  | notifySelection (displayName : String)
  | notifyText (body : String)
  | logError (msg : String)
  | enumeratePrinters
  | downloadAttempt
  | printSubmit (printer : String) (copies : Option Int)
  deriving Repr, DecidableEq

/-- `String.prototype.trim` on the underlying character list. -/
def jsTrimList (l : List Char) : List Char :=
  ((l.dropWhile Char.isWhitespace).reverse.dropWhile Char.isWhitespace).reverse

/-- JS `url.trim()` / `name.trim()`. -/
def jsTrim (s : String) : String :=
  String.mk (jsTrimList s.data)

/-- Case-insensitive prefix test (`pat` given in lowercase). -/
def startsWithCI (pat : List Char) (s : List Char) : Bool :=
  (s.take pat.length).map Char.toLower == pat

/-- The test `/^https?:\/\//i.test(s)`. -/
def isHttpUrl (s : String) : Bool :=
  startsWithCI "http://".data s.data || startsWithCI "https://".data s.data

/-- Value of a decimal digit list, most significant first. -/
def digitsToNat (l : List Char) : Nat :=
  l.foldl (fun a c => a * 10 + (c.toNat - 48)) 0

/-- Floor of the base-2 logarithm (for positive `x`), computed through the
binary digit expansion so that it reduces inside the kernel. -/
def natLog2 (x : Nat) : Nat :=
  (Nat.toDigits 2 x).length - 1

/-- Number of decimal digits of a positive natural number. -/
def numDigits10 (x : Nat) : Nat :=
  (Nat.toDigits 10 x).length

/-- IEEE-754 binary64 rounding of an exact non-negative integer
(round to nearest, ties to even): exact below `2^53`; above, the mantissa
is truncated to 53 bits and rounded; results reaching `2^1024` overflow to
Infinity (`none`).  This is the `𝔽(mathInt)` step of `parseInt`. -/
def roundNatToDouble (n : Nat) : Option Nat :=
  if n < 2 ^ 53 then some n
  else if 2 ^ 1024 ≤ n then none
  else
    let shift := natLog2 n - 52
    let q := n / 2 ^ shift
    let r := n % 2 ^ shift
    let q2 := if 2 * r > 2 ^ shift ∨ (2 * r = 2 ^ shift ∧ q % 2 = 1) then q + 1 else q
    let v := q2 * 2 ^ shift
    if 2 ^ 1024 ≤ v then none else some v

/-- Result of `Number.parseInt`: `NaN`, an infinity, or a finite double
(always integral for `parseInt`, so carried as its exact `Int` value). -/
inductive JsNum where
  | nan
  | negInf
  | posInf
  | finite (n : Int)
  deriving Repr, DecidableEq

/-- `Number.parseInt(s, 10)`: skip leading whitespace, optional sign, take
the longest digit prefix; no digits is `NaN`; otherwise the exact integer
denoted by the digits is rounded to a binary64 double, overflowing to
`±Infinity` (ECMA-262 `parseInt`: `𝔽(sign × mathInt)`). -/
def parseIntJs (s : String) : JsNum :=
  match s.data.dropWhile Char.isWhitespace with
  | '-' :: rest =>
    let d := rest.takeWhile Char.isDigit
    if d.isEmpty then JsNum.nan
    else
      match roundNatToDouble (digitsToNat d) with
      | some v => JsNum.finite (-(v : Int))
      | none => JsNum.negInf
  | '+' :: rest =>
    let d := rest.takeWhile Char.isDigit
    if d.isEmpty then JsNum.nan
    else
      match roundNatToDouble (digitsToNat d) with
      | some v => JsNum.finite (v : Int)
      | none => JsNum.posInf
  | t =>
    let d := t.takeWhile Char.isDigit
    if d.isEmpty then JsNum.nan
    else
      match roundNatToDouble (digitsToNat d) with
      | some v => JsNum.finite (v : Int)
      | none => JsNum.posInf

/-- Whether the scaled-by-4 interval `[lo4/4, hi4/4]` (both endpoints
included iff `incl`) contains a multiple of `p`. -/
def hasMultipleIn (lo4 hi4 p : Nat) (incl : Bool) : Bool :=
  let p4 := 4 * p
  let mLo := if incl then (lo4 + p4 - 1) / p4 else lo4 / p4 + 1
  let mHi := if incl then hi4 / p4 else (hi4 - 1) / p4
  decide (mLo ≤ mHi)

/-- Largest `j` not above the fuel bound such that a multiple of `10^j`
lies in the rounding interval; `j = 0` always qualifies for the intervals
arising below. -/
def bestPow (lo4 hi4 : Nat) (incl : Bool) : Nat → Nat
  | 0 => 0
  | j + 1 => if hasMultipleIn lo4 hi4 (10 ^ (j + 1)) incl then j + 1 else bestPow lo4 hi4 incl j

/-- Shortest decimal representation `(s, j)` with `s · 10^j` denoting the
binary64 double of integral value `x ≥ 1` (ECMA-262 `Number::toString`
digit choice): the fewest digits `s` whose reading rounds back to `x`,
closest to `x`, ties to even `s`.  The rounding interval of `x` extends a
half-ulp each way (a quarter-ulp downward at a binade boundary) and is
closed exactly when the mantissa is even; below `2^53` every integer is
exact and its own shortest form up to trailing zeros, which print
identically.  (On an `x` that is not a representable double the result is
immaterial: no JS number maps to it.) -/
def shortestDecimal (x : Nat) : Nat × Nat :=
  if x < 2 ^ 53 then (x, 0)
  else
    let b := natLog2 x
    let ulp := 2 ^ (b - 52)
    let mEven := decide ((x / ulp) % 2 = 0)
    let lo4 := 4 * x - (if x = 2 ^ b then ulp else 2 * ulp)
    let hi4 := 4 * x + 2 * ulp
    let j := bestPow lo4 hi4 mEven 342
    let p := 10 ^ j
    let p4 := 4 * p
    let mLo := if mEven then (lo4 + p4 - 1) / p4 else lo4 / p4 + 1
    let mHi := if mEven then hi4 / p4 else (hi4 - 1) / p4
    let r := x % p
    let m0 :=
      if 2 * r < p then x / p
      else if 2 * r > p then x / p + 1
      else if (x / p) % 2 = 0 then x / p else x / p + 1
    (max mLo (min m0 mHi), j)

/-- ECMA-262 `Number::toString(x, 10)` for a positive integral double
value: plain digits (shortest digits padded with zeros) while the decimal
exponent stays at or below 21, exponential notation `d.dddde+k` beyond. -/
def jsNatToString (x : Nat) : String :=
  let sd := shortestDecimal x
  let k := numDigits10 sd.1
  let nExp := k + sd.2
  if nExp ≤ 21 then
    toString sd.1 ++ String.mk (List.replicate sd.2 '0')
  else
    let ds := toString sd.1
    (if k = 1 then ds else ds.take 1 ++ "." ++ ds.drop 1) ++ "e+" ++ toString (nExp - 1)

/-- JS `ToString` of an optional field value, as applied by
`Number.parseInt` to a non-string argument (`undefined` for a missing
field).  A `jnum` stands for an integral double, carried by its exact
value, and stringifies per `Number::toString`. -/
def jsToString (v : Option JVal) : String :=
  match v with
  | none => "undefined"
  | some JVal.jnull => "null"
  | some (JVal.jstr s) => s
  | some (JVal.jnum n) =>
    if n = 0 then "0"
    else if n < 0 then "-" ++ jsNatToString n.natAbs
    else jsNatToString n.natAbs
  | some (JVal.jbool true) => "true"
  | some (JVal.jbool false) => "false"

/-- The `copies` normalization of the `/print` handler:
`Number.parseInt(copies, 10)` guarded by
`Number.isFinite(copiesValue) && copiesValue > 0`; `none` means the
`copies` option is omitted.  `Number.isFinite` holds exactly in the
`finite` branch — `NaN` and `±Infinity` (an overflowing digit string)
fail it, and `-Infinity` would also fail the positivity test. -/
def copiesOption (c : Option JVal) : Option Int :=
  match parseIntJs (jsToString c) with
  | JsNum.finite n => if 0 < n then some n else none
  | _ => none

/-- JS string from an optional string, `undefined`/`null` acting as `""`. -/
def orEmpty (o : Option String) : String :=
  o.getD ""

/-- The truthiness chain `a || b || ''` on optional strings. -/
def jsStrOr (a b : Option String) : String :=
  if orEmpty a = "" then orEmpty b else orEmpty a

/-- `(printerName || settings.selectedPrinter || '').trim()`. -/
def resolveTargetPrinter (printerName selected : Option String) : String :=
  jsTrim (jsStrOr printerName selected)

/-- JS truthiness of an optional string (`!settings.selectedPrinter`). -/
def optStrTruthy (o : Option String) : Bool :=
  orEmpty o != ""

/-- `getPrinterDisplayName(printerName)` from `main.js`. -/
def getPrinterDisplayName (printers : List Printer) (printerName : Option String) : String :=
  if optStrTruthy printerName = false then "Not selected"
  else
    let n := orEmpty printerName
    match printers.find? (fun p => p.name == n || p.displayName == some n) with
    | none => n
    | some p =>
      match p.displayName with
      | some d => if d = "" then p.name else d
      | none => p.name

/-- `setSelectedPrinter(printerName, persist, silent)`: a no-op when the
name is falsy or already selected; otherwise records the new selection,
persists when requested, refreshes the tray and (unless silent) notifies
with the display name. -/
def setSelectedPrinter (st : AppState) (printerName : String) (persist : Bool)
    (silent : Bool) : AppState × List Effect :=
  if printerName = "" ∨ st.selectedPrinter = some printerName then
    (st, [])
  else
    let st' : AppState := { st with selectedPrinter := some printerName }
    (st',
      (if persist then [Effect.persistWrite (some printerName)] else [])
        ++ [Effect.trayUpdate]
        ++ (if silent then []
            else [Effect.notifySelection (getPrinterDisplayName st.printers (some printerName))]))

/-- `printers.find((printer) => printer.isDefault) || printers[0]`. -/
def preferredPrinter (l : List Printer) : Option Printer :=
  match l.find? (fun p => p.isDefault) with
  | some p => some p
  | none => l.head?

/-- The auto-selection step of `refreshPrinters`:
`if (!settings.selectedPrinter && printers.length) { ... }` applied to the
state whose list was just replaced. -/
def refreshAutoSelect (st1 : AppState) (newList : List Printer) : AppState × List Effect :=
  if optStrTruthy st1.selectedPrinter = false ∧ newList ≠ [] then
    match preferredPrinter newList with
    | some p => setSelectedPrinter st1 p.name true true
    | none => (st1, [])
  else (st1, [])

/-- `refreshPrinters()`: returns unchanged when there is no hidden window;
otherwise calls the OS enumeration (outcome supplied by `enumResult`).  On
success the list is replaced wholesale and, when nothing is selected and
the new list is non-empty, the default (or first) printer is auto-selected
silently with persistence.  On failure the error is logged and the state is
left untouched.  Either way the tray is refreshed and a
"Refreshed printers" toast is shown. -/
def refreshPrinters (st : AppState) (enumResult : Except String (List Printer)) :
    AppState × List Effect :=
  if st.hiddenWindow = false then (st, [])
  else
    match enumResult with
    | Except.error _ =>
      (st, [Effect.enumeratePrinters, Effect.logError "Failed to fetch printers",
            Effect.trayUpdate, Effect.notifyText "Refreshed printers"])
    | Except.ok newList =>
      let sel := refreshAutoSelect { st with printers := newList } newList
      (sel.1, Effect.enumeratePrinters :: sel.2
        ++ [Effect.trayUpdate, Effect.notifyText "Refreshed printers"])

/-- `ensurePrinterAvailable(targetPrinter)`: check the cached list; if the
printer is absent, refresh once and recheck. -/
def ensurePrinterAvailable (st : AppState) (targetPrinter : String)
    (enumResult : Except String (List Printer)) : Bool × AppState × List Effect :=
  if st.printers.any (fun p => p.name == targetPrinter) then
    (true, st, [])
  else
    let r := refreshPrinters st enumResult
    (r.1.printers.any (fun p => p.name == targetPrinter), r.1, r.2)

/-- An HTTP response observed by `fetch`: per the Fetch spec,
`response.ok` is `status` in 200..299. -/
structure FetchResponse where
  status : Nat
  body : List Nat
  deriving Repr, DecidableEq

/-- `response.ok`. -/
def responseOk (r : FetchResponse) : Bool :=
  decide (200 ≤ r.status) && decide (r.status < 300)

/-- The filesystem at the granularity `downloadPdf` uses: the set of
existing temporary directories (each holding its downloaded file). -/
structure Fs where
  dirs : List String
  deriving Repr, DecidableEq

/-- Environment for one `downloadPdf` call: whether the Fetch API exists
(`fetchImpl !== null`), the fetch outcome (`Except.error` models a rejected
`fetch` promise), the unique directory name `mkdtemp` would create, and
possible `mkdtemp` / `writeFile` failures. -/
structure DownloadEnv where
  fetchAvailable : Bool
  fetchOutcome : Except String FetchResponse
  tempName : String
  mkdtempFails : Option String
  writeFails : Option String
  deriving Repr

/-- Errors thrown out of `downloadPdf`.  The first three constructors are
the errors the function itself constructs (the `DownloadError` family of
the spec); `netError` is a rejection propagated from `fetch` itself and
`fsError` a propagated `mkdtemp`/`writeFile` failure. -/
inductive DlError where
  | fetchUnavailable
  | httpStatus (status : Nat)
  | emptyBody
  | netError (msg : String)
  | fsError (msg : String)
  deriving Repr, DecidableEq

/-- Whether a thrown error is one of `downloadPdf`'s own download errors. -/
def isDownloadError : DlError → Bool
  | DlError.fetchUnavailable => true
  | DlError.httpStatus _ => true
  | DlError.emptyBody => true
  | DlError.netError _ => false
  | DlError.fsError _ => false

/-- `error.message` for each modelled error. -/
def errMessage : DlError → String
  | DlError.fetchUnavailable => "Fetch API is not available in this version of Electron."
  | DlError.httpStatus s => "Download failed: HTTP " ++ toString s
  | DlError.emptyBody => "Downloaded file is empty."
  | DlError.netError m => m
  | DlError.fsError m => m

/-- The Download Task returned by a successful `downloadPdf`. -/
structure DownloadTask where
  filePath : String
  tempDir : String
  deriving Repr, DecidableEq

/-- `downloadPdf(fileUrl)`: throws when the Fetch API is missing, the
response is not ok, or the body is empty; otherwise creates a fresh
temporary directory, writes `document.pdf` into it and returns the task.
Returns the thrown error or the task, together with the filesystem after
the call (a directory created by `mkdtemp` exists even when the subsequent
`writeFile` fails). -/
def downloadPdf (env : DownloadEnv) (fs : Fs) : Except DlError DownloadTask × Fs :=
  if env.fetchAvailable = false then (Except.error DlError.fetchUnavailable, fs)
  else
    match env.fetchOutcome with
    | Except.error m => (Except.error (DlError.netError m), fs)
    | Except.ok resp =>
      if responseOk resp = false then (Except.error (DlError.httpStatus resp.status), fs)
      else if resp.body = [] then (Except.error DlError.emptyBody, fs)
      else
        match env.mkdtempFails with
        | some m => (Except.error (DlError.fsError m), fs)
        | none =>
          let fs1 : Fs := { dirs := env.tempName :: fs.dirs }
          match env.writeFails with
          | some m => (Except.error (DlError.fsError m), fs1)
          | none =>
            (Except.ok { filePath := env.tempName ++ "/document.pdf", tempDir := env.tempName },
             fs1)

/-- The task's `cleanup`:
`fs.promises.rm(tempDir, { recursive: true, force: true })` — removes the
directory and everything in it, succeeding also when it no longer exists. -/
def cleanupRm (dir : String) (fs : Fs) : Except DlError Unit × Fs :=
  (Except.ok (), { dirs := fs.dirs.filter (fun d => d != dir) })

/-- Body of a `POST /print` request (`printerName` is declared as an
optional string by the API contract). -/
structure PrintReq where
  url : Option JVal
  printerName : Option String
  copies : Option JVal
  deriving Repr, DecidableEq

/-- Capability outcomes for one `/print` request: the enumeration result a
print-time refresh would observe, the download environment, and the print
capability outcome (`Except.error` carries `error.message`). -/
structure PrintEnv where
  enumResult : Except String (List Printer)
  dl : DownloadEnv
  printOutcome : Except String Unit
  deriving Repr

/-- The HTTP response serialized by the `/print` handler. -/
structure ApiResponse where
  status : Nat
  ok : Bool
  error : Option String
  printer : Option String
  deriving Repr, DecidableEq

/-- A `400`/`404`/`500` error response. -/
def errResponse (status : Nat) (msg : String) : ApiResponse :=
  { status := status, ok := false, error := some msg, printer := none }

/-- The try/catch pipeline at the end of the `/print` handler: download,
then print inside a `try`/`finally` that runs `task.cleanup()`, with the
outer `catch` mapping any thrown error to a 500 response. -/
def printPipeline (st : AppState) (fs : Fs) (targetPrinter : String)
    (copies : Option Int) (dl : DownloadEnv) (printOutcome : Except String Unit)
    (effs : List Effect) : ApiResponse × AppState × Fs × List Effect :=
  match downloadPdf dl fs with
  | (Except.error e, fs1) =>
    (errResponse 500 (errMessage e), st, fs1,
     effs ++ [Effect.downloadAttempt, Effect.logError "Print job failed",
              Effect.notifyText ("Print failed: " ++ errMessage e)])
  | (Except.ok task, fs1) =>
    match printOutcome with
    | Except.ok _ =>
      ({ status := 200, ok := true, error := none, printer := some targetPrinter }, st,
       (cleanupRm task.tempDir fs1).2,
       effs ++ [Effect.downloadAttempt, Effect.printSubmit targetPrinter copies,
                Effect.notifyText
                  ("Sent document to " ++ getPrinterDisplayName st.printers (some targetPrinter))])
    | Except.error m =>
      (errResponse 500 m, st, (cleanupRm task.tempDir fs1).2,
       effs ++ [Effect.downloadAttempt, Effect.printSubmit targetPrinter copies,
                Effect.logError "Print job failed",
                Effect.notifyText ("Print failed: " ++ m)])

/-- The `POST /print` handler.  Returns the HTTP response, the module state
after the request, the filesystem after the request, and the effect
trace. -/
def printHandler (st : AppState) (fs : Fs) (req : PrintReq) (env : PrintEnv) :
    ApiResponse × AppState × Fs × List Effect :=
  match req.url with
  | some (JVal.jstr u) =>
    if u = "" then (errResponse 400 "Field \"url\" is required.", st, fs, [])
    else
      let normalizedUrl := jsTrim u
      if isHttpUrl normalizedUrl = false then
        (errResponse 400 "Only http/https URLs are supported.", st, fs, [])
      else
        let targetPrinter := resolveTargetPrinter req.printerName st.selectedPrinter
        if targetPrinter = "" then
          (errResponse 400 "No printer selected.", st, fs, [])
        else
          let avail := ensurePrinterAvailable st targetPrinter env.enumResult
          if avail.1 = false then
            (errResponse 404 "Selected printer is not available.", avail.2.1, fs, avail.2.2)
          else
            printPipeline avail.2.1 fs targetPrinter (copiesOption req.copies) env.dl
              env.printOutcome avail.2.2
  | _ => (errResponse 400 "Field \"url\" is required.", st, fs, [])

/-- Condition under which `downloadPdf` throws one of its own download
errors: the Fetch API is missing, or the response arrived but is not ok or
has an empty body. -/
def downloadErrorCond (env : DownloadEnv) : Prop :=
  env.fetchAvailable = false ∨
    ∃ r, env.fetchOutcome = Except.ok r ∧ (responseOk r = false ∨ r.body = [])

/-- Condition under which the `/print` handler rejects the `url` field:
it is missing, not a string, or (after trimming) does not start with
`http://` or `https://` case-insensitively.  An empty string is covered
because `jsTrim "" = ""` starts with neither. -/
def urlFailCond (req : PrintReq) : Prop :=
  match req.url with
  | some (JVal.jstr u) => isHttpUrl (jsTrim u) = false
  | _ => True

/-! Concrete fixtures used by witnesses and counterexamples. -/

/-- A printer flagged as the OS default. -/
def officePr : Printer :=
  { name := "Office", displayName := some "Office Printer", isDefault := true }

/-- A second printer, not the default. -/
def lobbyPr : Printer :=
  { name := "Lobby", displayName := none, isDefault := false }

/-- A printer whose OS-reported name is the empty string. -/
def namelessPr : Printer :=
  { name := "", displayName := none, isDefault := false }

/-- State with one known printer which is also selected. -/
def stW : AppState :=
  { printers := [officePr], selectedPrinter := some "Office", hiddenWindow := true }

/-- State with an empty registry and no selection. -/
def stEmpty : AppState :=
  { printers := [], selectedPrinter := none, hiddenWindow := true }

/-- A filesystem holding one unrelated temporary directory. -/
def fsW : Fs :=
  { dirs := ["keep-me"] }

/-- Download environment in which everything succeeds. -/
def dlOkEnv : DownloadEnv :=
  { fetchAvailable := true, fetchOutcome := Except.ok { status := 200, body := [37, 80] },
    tempName := "printer-ws-1", mkdtempFails := none, writeFails := none }

/-- Download environment in which the HTTP status is 404. -/
def dlStatusFail : DownloadEnv :=
  { fetchAvailable := true, fetchOutcome := Except.ok { status := 404, body := [60] },
    tempName := "printer-ws-2", mkdtempFails := none, writeFails := none }

/-- Download environment in which the body downloads but `writeFile`
fails after `mkdtemp` has created the directory. -/
def dlWriteFail : DownloadEnv :=
  { fetchAvailable := true, fetchOutcome := Except.ok { status := 200, body := [37] },
    tempName := "printer-ws-3", mkdtempFails := none, writeFails := some "EACCES" }

/-- Request environment in which download and print both succeed. -/
def envOk : PrintEnv :=
  { enumResult := Except.ok [officePr], dl := dlOkEnv, printOutcome := Except.ok () }

/-- Request environment in which the print capability fails. -/
def envPrintFail : PrintEnv :=
  { enumResult := Except.ok [officePr], dl := dlOkEnv,
    printOutcome := Except.error "spooler offline" }

/-- Request environment in which `writeFile` fails during download. -/
def envWriteFail : PrintEnv :=
  { enumResult := Except.ok [officePr], dl := dlWriteFail, printOutcome := Except.ok () }

/-- Request environment whose refresh also finds no printer. -/
def envStillMissing : PrintEnv :=
  { enumResult := Except.ok [officePr], dl := dlOkEnv, printOutcome := Except.ok () }

/-- A well-formed print request with integer `copies`. -/
def reqOk : PrintReq :=
  { url := some (JVal.jstr "https://files.test/a.pdf"), printerName := none,
    copies := some (JVal.jnum 2) }

/-- A print request whose URL begins with a space before the scheme. -/
def reqSpaceUrl : PrintReq :=
  { url := some (JVal.jstr " http://files.test/a.pdf"), printerName := none, copies := none }

/-- A print request whose explicit printer name is whitespace only. -/
def reqWsPrinter : PrintReq :=
  { url := some (JVal.jstr "https://files.test/a.pdf"), printerName := some "   ",
    copies := none }

/-- A print request naming a printer that no refresh will find. -/
def reqGhost : PrintReq :=
  { url := some (JVal.jstr "https://files.test/a.pdf"), printerName := some "Ghost",
    copies := none }

/-! Helper lemmas. -/

/-- A string never survives a filter that removes it. -/
theorem not_mem_filter_ne (d : String) (l : List String) :
    d ∉ l.filter (fun x => x != d) := by
  intro h
  have := List.of_mem_filter h
  simp at this

/-- `setSelectedPrinter` leaves the printer list unchanged. -/
theorem setSelectedPrinter_printers (st : AppState) (n : String) (p s : Bool) :
    (setSelectedPrinter st n p s).1.printers = st.printers := by
  unfold setSelectedPrinter
  split <;> rfl

/-- The effects of `setSelectedPrinter` never include a capability call. -/
theorem setSelectedPrinter_effs (st : AppState) (n : String) (p s : Bool) (e : Effect) :
    e ∈ (setSelectedPrinter st n p s).2 →
      e = Effect.persistWrite (some n) ∨ e = Effect.trayUpdate ∨
        e = Effect.notifySelection (getPrinterDisplayName st.printers (some n)) := by
  unfold setSelectedPrinter
  split
  · intro h; simp at h
  · intro h
    simp only [List.mem_append, List.mem_singleton] at h
    rcases h with (h | h) | h
    · left
      cases p <;> simp_all
    · right; left; exact h
    · right; right
      cases s <;> simp_all

/-- Claim C6: selecting an empty name or the already-selected name is a
complete no-op (state unchanged, no persistence write, no effect at all);
any other non-empty name becomes the selection, with a persistence write
exactly when `persist` is requested. -/
theorem select_noop_or_sets (st : AppState) (n : String) (persist silent : Bool) :
    ((n = "" ∨ st.selectedPrinter = some n) →
        setSelectedPrinter st n persist silent = (st, [])) ∧
    (n ≠ "" → st.selectedPrinter ≠ some n →
        (setSelectedPrinter st n persist silent).1.selectedPrinter = some n ∧
        (setSelectedPrinter st n persist silent).1.printers = st.printers ∧
        (persist = true →
          Effect.persistWrite (some n) ∈ (setSelectedPrinter st n persist silent).2) ∧
        (persist = false →
          ∀ o, Effect.persistWrite o ∉ (setSelectedPrinter st n persist silent).2)) := by
  constructor
  · intro h
    unfold setSelectedPrinter
    rw [if_pos h]
  · intro h1 h2
    unfold setSelectedPrinter
    rw [if_neg (by tauto)]
    refine ⟨rfl, rfl, ?_, ?_⟩
    · intro hp
      subst hp
      simp
    · intro hp o
      subst hp
      cases silent <;> simp

/-- Witness for C6: with "Office" already selected, re-selecting it is a
no-op, and selecting "Lobby" updates the selection with a persistence
write. -/
theorem select_noop_or_sets_witness :
    setSelectedPrinter stW "Office" true false = (stW, []) ∧
    (setSelectedPrinter stW "Lobby" true false).1.selectedPrinter = some "Lobby" ∧
    Effect.persistWrite (some "Lobby") ∈ (setSelectedPrinter stW "Lobby" true false).2 := by
  refine ⟨(select_noop_or_sets stW "Office" true false).1 (Or.inr (by decide)), ?_, ?_⟩
  · exact ((select_noop_or_sets stW "Lobby" true false).2 (by decide) (by decide)).1
  · exact ((select_noop_or_sets stW "Lobby" true false).2 (by decide) (by decide)).2.2.1 rfl

/-- Auto-selection never changes the printer list. -/
theorem refreshAutoSelect_printers (st1 : AppState) (l : List Printer) :
    (refreshAutoSelect st1 l).1.printers = st1.printers := by
  unfold refreshAutoSelect
  split
  · split
    · exact setSelectedPrinter_printers _ _ _ _
    · rfl
  · rfl

/-- Auto-selection never changes the hidden-window flag. -/
theorem refreshAutoSelect_hidden (st1 : AppState) (l : List Printer) :
    (refreshAutoSelect st1 l).1.hiddenWindow = st1.hiddenWindow := by
  unfold refreshAutoSelect setSelectedPrinter
  split
  · split
    · split <;> rfl
    · rfl
  · rfl

/-- Auto-selection effects come from `setSelectedPrinter` only. -/
theorem refreshAutoSelect_effs (st1 : AppState) (l : List Printer) (e : Effect) :
    e ∈ (refreshAutoSelect st1 l).2 →
      e = Effect.persistWrite (refreshAutoSelect st1 l).1.selectedPrinter ∨
        e = Effect.trayUpdate ∨ ∃ d, e = Effect.notifySelection d := by
  unfold refreshAutoSelect
  split
  · split
    case _ p hp =>
      intro h
      rcases setSelectedPrinter_effs _ _ _ _ _ h with h1 | h1 | h1
      · left
        rw [h1]
        unfold setSelectedPrinter
        split
        · simp_all [setSelectedPrinter]
        · rfl
      · right; left; exact h1
      · right; right; exact ⟨_, h1⟩
    · intro h; simp at h
  · intro h; simp at h

/-- Claim C8: when the OS printer enumeration fails, `refreshPrinters`
logs the failure and leaves the whole state (list and selection)
untouched; the list is replaced wholesale only on a successful
enumeration. -/
theorem refresh_failure_keeps_state (st : AppState) (m : String) (l : List Printer)
    (hw : st.hiddenWindow = true) :
    (refreshPrinters st (Except.error m)).1 = st ∧
    Effect.logError "Failed to fetch printers" ∈ (refreshPrinters st (Except.error m)).2 ∧
    (refreshPrinters st (Except.ok l)).1.printers = l := by
  unfold refreshPrinters
  rw [if_neg (by simp [hw]), if_neg (by simp [hw])]
  refine ⟨rfl, by simp, ?_⟩
  exact refreshAutoSelect_printers _ _

/-- Witness for C8: a failed enumeration leaves the concrete state `stW`
untouched and logs, while a successful one installs the new list. -/
theorem refresh_failure_keeps_state_witness :
    (refreshPrinters stW (Except.error "boom")).1 = stW ∧
    Effect.logError "Failed to fetch printers" ∈ (refreshPrinters stW (Except.error "boom")).2 ∧
    (refreshPrinters stW (Except.ok [lobbyPr])).1.printers = [lobbyPr] :=
  refresh_failure_keeps_state stW "boom" [lobbyPr] (by decide)

/-- `preferredPrinter` returns nothing on an empty list. -/
theorem preferredPrinter_nil : preferredPrinter [] = none := by
  rfl

/-- Unfolding equation for `refreshPrinters` on a successful enumeration. -/
theorem refreshPrinters_ok_eq (st : AppState) (l : List Printer) (hw : st.hiddenWindow = true) :
    refreshPrinters st (Except.ok l) =
      ((refreshAutoSelect { st with printers := l } l).1,
        Effect.enumeratePrinters :: (refreshAutoSelect { st with printers := l } l).2
          ++ [Effect.trayUpdate, Effect.notifyText "Refreshed printers"]) := by
  unfold refreshPrinters
  rw [if_neg (by simp [hw])]

/-- Unfolding equation for `refreshPrinters` on a failed enumeration. -/
theorem refreshPrinters_error_eq (st : AppState) (m : String) (hw : st.hiddenWindow = true) :
    refreshPrinters st (Except.error m) =
      (st, [Effect.enumeratePrinters, Effect.logError "Failed to fetch printers",
            Effect.trayUpdate, Effect.notifyText "Refreshed printers"]) := by
  unfold refreshPrinters
  rw [if_neg (by simp [hw])]

/-- Exact outcome of the auto-selection step when it fires on a printer
with a non-empty name. -/
theorem refreshAutoSelect_sets (st1 : AppState) (newList : List Printer) (p : Printer)
    (hsel : optStrTruthy st1.selectedPrinter = false)
    (hpref : preferredPrinter newList = some p) (hne : p.name ≠ "") :
    refreshAutoSelect st1 newList =
      ({ st1 with selectedPrinter := some p.name },
        [Effect.persistWrite (some p.name), Effect.trayUpdate]) := by
  have hnil : newList ≠ [] := by
    intro h
    subst h
    rw [preferredPrinter_nil] at hpref
    exact Option.noConfusion hpref
  unfold refreshAutoSelect
  rw [if_pos ⟨hsel, hnil⟩, hpref]
  show setSelectedPrinter st1 p.name true true = _
  unfold setSelectedPrinter
  rw [if_neg ?side]
  case side =>
    rintro (h | h)
    · exact hne h
    · rw [h] at hsel
      simp [optStrTruthy, orEmpty] at hsel
      exact hne hsel
  rfl

/-- The auto-selection step is skipped when something is selected or the
new list is empty. -/
theorem refreshAutoSelect_skip (st1 : AppState) (newList : List Printer)
    (h : optStrTruthy st1.selectedPrinter = true ∨ newList = []) :
    refreshAutoSelect st1 newList = (st1, []) := by
  unfold refreshAutoSelect
  rw [if_neg ?cond]
  case cond =>
    rintro ⟨h1, h2⟩
    rcases h with h | h
    · rw [h] at h1; exact Bool.noConfusion h1
    · exact h2 h

/-- Claim C5 (amended): on a successful refresh, if and only if nothing is
selected and the new list is non-empty, the default (or first) printer is
auto-selected silently with an immediate persistence write — provided its
name is non-empty; an already-present selection is never changed by the
refresh. -/
theorem refresh_auto_select_amended (st : AppState) (newList : List Printer)
    (hw : st.hiddenWindow = true) :
    (∀ p, optStrTruthy st.selectedPrinter = false → preferredPrinter newList = some p →
        p.name ≠ "" →
        (refreshPrinters st (Except.ok newList)).1.selectedPrinter = some p.name ∧
        Effect.persistWrite (some p.name) ∈ (refreshPrinters st (Except.ok newList)).2 ∧
        ∀ d, Effect.notifySelection d ∉ (refreshPrinters st (Except.ok newList)).2) ∧
    (optStrTruthy st.selectedPrinter = true →
        (refreshPrinters st (Except.ok newList)).1.selectedPrinter = st.selectedPrinter ∧
        ∀ o, Effect.persistWrite o ∉ (refreshPrinters st (Except.ok newList)).2) ∧
    (newList = [] →
        (refreshPrinters st (Except.ok newList)).1.selectedPrinter = st.selectedPrinter ∧
        ∀ o, Effect.persistWrite o ∉ (refreshPrinters st (Except.ok newList)).2) := by
  rw [refreshPrinters_ok_eq st newList hw]
  refine ⟨?_, ?_, ?_⟩
  · intro p hsel hpref hne
    rw [refreshAutoSelect_sets { st with printers := newList } newList p hsel hpref hne]
    exact ⟨rfl, by simp, by intro d; simp⟩
  · intro hsel
    rw [refreshAutoSelect_skip { st with printers := newList } newList (Or.inl hsel)]
    exact ⟨rfl, by intro o; simp⟩
  · intro hnil
    rw [refreshAutoSelect_skip { st with printers := newList } newList (Or.inr hnil)]
    exact ⟨rfl, by intro o; simp⟩

/-- Counterexample to claim C5 as stated: with nothing selected and a
non-empty new list whose first (and only, non-default) entry has an empty
name, the refresh auto-selects nothing and writes nothing to persistence —
the trace is exactly enumeration, tray update and the refresh toast. -/
theorem refresh_auto_select_counterexample :
    (refreshPrinters stEmpty (Except.ok [namelessPr])).1.selectedPrinter = none ∧
    (refreshPrinters stEmpty (Except.ok [namelessPr])).2 =
      [Effect.enumeratePrinters, Effect.trayUpdate, Effect.notifyText "Refreshed printers"] := by
  decide

/-- Witness for C5 (amended): an empty registry refreshed with
`[lobbyPr, officePr]` auto-selects the OS default "Office" (not the first
entry) and persists it. -/
theorem refresh_auto_select_amended_witness :
    (refreshPrinters stEmpty (Except.ok [lobbyPr, officePr])).1.selectedPrinter = some "Office" ∧
    Effect.persistWrite (some "Office") ∈
      (refreshPrinters stEmpty (Except.ok [lobbyPr, officePr])).2 := by
  have h := (refresh_auto_select_amended stEmpty [lobbyPr, officePr] (by decide)).1 officePr
    (by decide) (by decide) (by decide)
  exact ⟨h.1, h.2.1⟩

/-- Claim C4: `downloadPdf` throws one of its own download errors exactly
when the Fetch API is unavailable, the response status is outside the
success range, or the body is empty; a successful call hands back the file
inside a freshly created temporary directory, and the cleanup action
removes a directory recursively while tolerating one that is already
gone. -/
theorem download_error_iff (env : DownloadEnv) (fs : Fs) :
    ((∃ e, (downloadPdf env fs).1 = Except.error e ∧ isDownloadError e = true) ↔
        downloadErrorCond env) ∧
    (∀ t, (downloadPdf env fs).1 = Except.ok t →
        t.tempDir = env.tempName ∧ t.filePath = env.tempName ++ "/document.pdf" ∧
        (downloadPdf env fs).2.dirs = env.tempName :: fs.dirs) ∧
    (∀ d fs2, (cleanupRm d fs2).1 = Except.ok () ∧ d ∉ (cleanupRm d fs2).2.dirs ∧
        (d ∉ fs2.dirs → cleanupRm d fs2 = (Except.ok (), fs2))) := by
  obtain ⟨fa, fo, tn, mf, wf⟩ := env
  refine ⟨?_, ?_, ?_⟩
  · cases fa
    · simp [downloadPdf, downloadErrorCond, isDownloadError]
    · cases fo with
      | error m => simp [downloadPdf, downloadErrorCond, isDownloadError]
      | ok r =>
        by_cases hok : responseOk r = true
        · by_cases hb : r.body = []
          · simp [downloadPdf, downloadErrorCond, isDownloadError, hok, hb]
          · cases mf with
            | some m => simp [downloadPdf, downloadErrorCond, isDownloadError, hok, hb]
            | none =>
              cases wf with
              | some m => simp [downloadPdf, downloadErrorCond, isDownloadError, hok, hb]
              | none => simp [downloadPdf, downloadErrorCond, isDownloadError, hok, hb]
        · simp [downloadPdf, downloadErrorCond, isDownloadError, hok]
  · intro t ht
    cases fa
    · simp [downloadPdf] at ht
    · cases fo with
      | error m => simp [downloadPdf] at ht
      | ok r =>
        by_cases hok : responseOk r = true
        · by_cases hb : r.body = []
          · simp [downloadPdf, hok, hb] at ht
          · cases mf with
            | some m => simp [downloadPdf, hok, hb] at ht
            | none =>
              cases wf with
              | some m => simp [downloadPdf, hok, hb] at ht
              | none =>
                simp [downloadPdf, hok, hb] at ht
                subst ht
                exact ⟨rfl, rfl, by simp [downloadPdf, hok, hb]⟩
        · simp [downloadPdf, hok] at ht
  · intro d fs2
    refine ⟨rfl, not_mem_filter_ne d fs2.dirs, ?_⟩
    intro hd
    unfold cleanupRm
    have hfe : fs2.dirs.filter (fun x => x != d) = fs2.dirs := by
      apply List.filter_eq_self.mpr
      intro a ha
      simp only [bne_iff_ne, ne_eq]
      intro h
      subst h
      exact hd ha
    rw [hfe]

/-- Witness for C4: an HTTP 404 yields a download error, and cleaning up a
directory that does not exist succeeds and changes nothing. -/
theorem download_error_iff_witness :
    (∃ e, (downloadPdf dlStatusFail fsW).1 = Except.error e ∧ isDownloadError e = true) ∧
    cleanupRm "already-gone" fsW = (Except.ok (), fsW) := by
  refine ⟨(download_error_iff dlStatusFail fsW).1.mpr ?_,
    ((download_error_iff dlStatusFail fsW).2.2 "already-gone" fsW).2.2 (by decide)⟩
  exact Or.inr ⟨{ status := 404, body := [60] }, rfl, Or.inl (by decide)⟩

/-- `ensurePrinterAvailable` when the printer is already cached. -/
theorem ensurePrinterAvailable_hit (st : AppState) (t : String)
    (er : Except String (List Printer))
    (h : st.printers.any (fun p => p.name == t) = true) :
    ensurePrinterAvailable st t er = (true, st, []) := by
  unfold ensurePrinterAvailable
  rw [if_pos h]

/-- `ensurePrinterAvailable` when the printer is not cached: one refresh,
then a recheck against the refreshed list. -/
theorem ensurePrinterAvailable_miss (st : AppState) (t : String)
    (er : Except String (List Printer))
    (h : st.printers.any (fun p => p.name == t) = false) :
    ensurePrinterAvailable st t er =
      ((refreshPrinters st er).1.printers.any (fun p => p.name == t),
        (refreshPrinters st er).1, (refreshPrinters st er).2) := by
  unfold ensurePrinterAvailable
  rw [if_neg (by simp [h])]

/-- Unfolding equation for `printHandler` once the URL has passed
validation. -/
theorem printHandler_valid_eq (st : AppState) (fs : Fs) (req : PrintReq) (env : PrintEnv)
    (u : String) (hu : req.url = some (JVal.jstr u)) (hne : u ≠ "")
    (hhttp : isHttpUrl (jsTrim u) = true) :
    printHandler st fs req env =
      (if resolveTargetPrinter req.printerName st.selectedPrinter = "" then
        (errResponse 400 "No printer selected.", st, fs, [])
      else
        if (ensurePrinterAvailable st (resolveTargetPrinter req.printerName st.selectedPrinter)
            env.enumResult).1 = false then
          (errResponse 404 "Selected printer is not available.",
            (ensurePrinterAvailable st (resolveTargetPrinter req.printerName st.selectedPrinter)
              env.enumResult).2.1,
            fs,
            (ensurePrinterAvailable st (resolveTargetPrinter req.printerName st.selectedPrinter)
              env.enumResult).2.2)
        else
          printPipeline
            (ensurePrinterAvailable st (resolveTargetPrinter req.printerName st.selectedPrinter)
              env.enumResult).2.1
            fs (resolveTargetPrinter req.printerName st.selectedPrinter)
            (copiesOption req.copies) env.dl env.printOutcome
            (ensurePrinterAvailable st (resolveTargetPrinter req.printerName st.selectedPrinter)
              env.enumResult).2.2) := by
  unfold printHandler
  rw [hu]
  simp only [hne, hhttp]
  rw [if_neg (by exact id), if_neg (by simp)]

/-- Claim C3 (amended): whenever the `url` field is missing, not a string,
or its trimmed value does not begin with `http://` or `https://`
(case-insensitively), the `/print` handler responds 400, changes neither
the state nor the filesystem, and performs no capability call at all — in
particular the download step is never invoked. -/
theorem url_validation_amended (st : AppState) (fs : Fs) (req : PrintReq) (env : PrintEnv)
    (h : urlFailCond req) :
    (printHandler st fs req env).1.status = 400 ∧
    (printHandler st fs req env).1.ok = false ∧
    (printHandler st fs req env).2.1 = st ∧
    (printHandler st fs req env).2.2.1 = fs ∧
    (printHandler st fs req env).2.2.2 = [] := by
  cases hreq : req.url with
  | none =>
    unfold printHandler
    rw [hreq]
    exact ⟨rfl, rfl, rfl, rfl, rfl⟩
  | some v =>
    cases v with
    | jnull =>
      unfold printHandler
      rw [hreq]
      exact ⟨rfl, rfl, rfl, rfl, rfl⟩
    | jnum n =>
      unfold printHandler
      rw [hreq]
      exact ⟨rfl, rfl, rfl, rfl, rfl⟩
    | jbool b =>
      unfold printHandler
      rw [hreq]
      exact ⟨rfl, rfl, rfl, rfl, rfl⟩
    | jstr u =>
      unfold urlFailCond at h
      rw [hreq] at h
      by_cases hu : u = ""
      · subst hu
        unfold printHandler
        rw [hreq]
        exact ⟨rfl, rfl, rfl, rfl, rfl⟩
      · unfold printHandler
        rw [hreq]
        simp only [hu]
        rw [if_neg (by exact id), if_pos h]
        exact ⟨rfl, rfl, rfl, rfl, rfl⟩

/-- Counterexample to claim C3 as stated: the raw URL
`" http://files.test/a.pdf"` does not begin with `http://` (it begins with
a space), yet the handler trims it first, accepts the request with status
200, and does invoke the download step. -/
theorem url_validation_counterexample :
    isHttpUrl " http://files.test/a.pdf" = false ∧
    (printHandler stW fsW reqSpaceUrl envOk).1.status = 200 ∧
    Effect.downloadAttempt ∈ (printHandler stW fsW reqSpaceUrl envOk).2.2.2 := by
  decide

/-- Witness for C3 (amended): an `ftp://` URL is rejected with 400 and an
empty effect trace. -/
theorem url_validation_amended_witness :
    (printHandler stW fsW { reqOk with url := some (JVal.jstr "ftp://files.test/a.pdf") }
        envOk).1.status = 400 ∧
    (printHandler stW fsW { reqOk with url := some (JVal.jstr "ftp://files.test/a.pdf") }
        envOk).2.2.2 = [] := by
  have h := url_validation_amended stW fsW
    { reqOk with url := some (JVal.jstr "ftp://files.test/a.pdf") } envOk
    (by show isHttpUrl (jsTrim "ftp://files.test/a.pdf") = false; decide)
  exact ⟨h.1, h.2.2.2.2⟩

/-- Claim C9 (amended): for a valid URL, the raw `printerName` argument
wins over the Registry selection whenever it is a truthy (non-empty)
string; the chosen value is then trimmed, and only if the trimmed result
is empty does the request fail with 400 "No printer selected." — before
any availability check, download or print attempt (empty effect trace). -/
theorem printer_resolution_amended (st : AppState) (fs : Fs) (req : PrintReq) (env : PrintEnv)
    (u : String) (hu : req.url = some (JVal.jstr u)) (hne : u ≠ "")
    (hhttp : isHttpUrl (jsTrim u) = true) :
    (∀ s, req.printerName = some s → s ≠ "" →
        resolveTargetPrinter req.printerName st.selectedPrinter = jsTrim s) ∧
    (resolveTargetPrinter req.printerName st.selectedPrinter = "" →
        (printHandler st fs req env).1 = errResponse 400 "No printer selected." ∧
        (printHandler st fs req env).2.1 = st ∧
        (printHandler st fs req env).2.2.1 = fs ∧
        (printHandler st fs req env).2.2.2 = []) := by
  constructor
  · intro s hs hsne
    unfold resolveTargetPrinter jsStrOr orEmpty
    rw [hs]
    simp [hsne]
  · intro ht
    rw [printHandler_valid_eq st fs req env u hu hne hhttp, if_pos ht]
    exact ⟨rfl, rfl, rfl, rfl⟩

/-- Counterexample to claim C9 as stated: the Registry has "Office"
selected (a non-empty name, and the printer is cached), yet a request whose
explicit `printerName` is whitespace-only is rejected with 400
"No printer selected." instead of falling back to the selected printer. -/
theorem printer_resolution_counterexample :
    stW.selectedPrinter = some "Office" ∧
    stW.printers.any (fun p => p.name == "Office") = true ∧
    (printHandler stW fsW reqWsPrinter envOk).1 = errResponse 400 "No printer selected." ∧
    (printHandler stW fsW reqWsPrinter envOk).2.2.2 = [] := by
  decide

/-- Witness for C9 (amended): with nothing selected and no explicit name,
the request fails with 400 "No printer selected.". -/
theorem printer_resolution_amended_witness :
    (printHandler stEmpty fsW { reqOk with printerName := none } envOk).1 =
      errResponse 400 "No printer selected." := by
  have h := (printer_resolution_amended stEmpty fsW { reqOk with printerName := none } envOk
    "https://files.test/a.pdf" rfl (by decide) (by decide)).2 (by decide)
  exact h.1

/-- Auto-selection never calls the enumeration capability. -/
theorem refreshAutoSelect_no_enum (st1 : AppState) (l : List Printer) :
    Effect.enumeratePrinters ∉ (refreshAutoSelect st1 l).2 := by
  intro h
  rcases refreshAutoSelect_effs st1 l _ h with h1 | h1 | ⟨d, h1⟩ <;> simp_all

/-- A refresh never invokes the download step. -/
theorem refreshPrinters_no_download (st : AppState) (er : Except String (List Printer)) :
    Effect.downloadAttempt ∉ (refreshPrinters st er).2 := by
  by_cases hw : st.hiddenWindow = false
  · unfold refreshPrinters
    rw [if_pos hw]
    simp
  · have hw' : st.hiddenWindow = true := by revert hw; cases st.hiddenWindow <;> simp
    cases er with
    | error m =>
      rw [refreshPrinters_error_eq st m hw']
      simp
    | ok l =>
      rw [refreshPrinters_ok_eq st l hw']
      intro h
      rcases List.mem_cons.mp h with h | h
      · exact Effect.noConfusion h
      · rcases List.mem_append.mp h with h | h
        · rcases refreshAutoSelect_effs _ _ _ h with h1 | h1 | ⟨d, h1⟩ <;> simp_all
        · simp at h

/-- A refresh never submits anything to the print capability. -/
theorem refreshPrinters_no_printSubmit (st : AppState) (er : Except String (List Printer))
    (p : String) (c : Option Int) :
    Effect.printSubmit p c ∉ (refreshPrinters st er).2 := by
  by_cases hw : st.hiddenWindow = false
  · unfold refreshPrinters
    rw [if_pos hw]
    simp
  · have hw' : st.hiddenWindow = true := by revert hw; cases st.hiddenWindow <;> simp
    cases er with
    | error m =>
      rw [refreshPrinters_error_eq st m hw']
      simp
    | ok l =>
      rw [refreshPrinters_ok_eq st l hw']
      intro h
      rcases List.mem_cons.mp h with h | h
      · exact Effect.noConfusion h
      · rcases List.mem_append.mp h with h | h
        · rcases refreshAutoSelect_effs _ _ _ h with h1 | h1 | ⟨d, h1⟩ <;> simp_all
        · simp at h

/-- A refresh calls the enumeration capability exactly once. -/
theorem refreshPrinters_enum_count (st : AppState) (er : Except String (List Printer))
    (hw : st.hiddenWindow = true) :
    (refreshPrinters st er).2.count Effect.enumeratePrinters = 1 := by
  cases er with
  | error m =>
    rw [refreshPrinters_error_eq st m hw]
    rfl
  | ok l =>
    rw [refreshPrinters_ok_eq st l hw]
    simp [List.count_cons, List.count_append,
      List.count_eq_zero.mpr (refreshAutoSelect_no_enum _ l)]

/-- The pipeline appends its own effects, which never include an
enumeration call. -/
theorem printPipeline_effs_shape (st1 : AppState) (fs : Fs) (t : String) (co : Option Int)
    (dl : DownloadEnv) (pr : Except String Unit) (effs : List Effect) :
    ∃ tail, (printPipeline st1 fs t co dl pr effs).2.2.2 = effs ++ tail ∧
      Effect.enumeratePrinters ∉ tail ∧
      (∀ p c, Effect.printSubmit p c ∈ tail → p = t ∧ c = co) := by
  unfold printPipeline
  split
  · exact ⟨_, rfl, by simp, by intro p c h; simp at h⟩
  · split
    · exact ⟨_, rfl, by simp, by intro p c h; simp at h; exact ⟨h.1, h.2⟩⟩
    · exact ⟨_, rfl, by simp, by intro p c h; simp at h; exact ⟨h.1, h.2⟩⟩

/-- Claim C2: when the resolved target printer is absent from the cached
list, the `/print` handler performs exactly one discovery refresh and
rechecks; if the printer is still absent afterwards, it responds 404,
leaves the filesystem unchanged and never invokes the download step. -/
theorem absent_printer_single_refresh_404 (st : AppState) (fs : Fs) (req : PrintReq)
    (env : PrintEnv) (u t : String)
    (hw : st.hiddenWindow = true)
    (hu : req.url = some (JVal.jstr u)) (hne : u ≠ "") (hhttp : isHttpUrl (jsTrim u) = true)
    (ht : resolveTargetPrinter req.printerName st.selectedPrinter = t) (htne : t ≠ "")
    (hmiss : st.printers.any (fun p => p.name == t) = false) :
    ((printHandler st fs req env).2.2.2.count Effect.enumeratePrinters = 1) ∧
    ((∀ l, env.enumResult = Except.ok l → l.any (fun p => p.name == t) = false) →
        (printHandler st fs req env).1.status = 404 ∧
        (printHandler st fs req env).1.ok = false ∧
        Effect.downloadAttempt ∉ (printHandler st fs req env).2.2.2 ∧
        (printHandler st fs req env).2.2.1 = fs) := by
  rw [printHandler_valid_eq st fs req env u hu hne hhttp, ht, if_neg htne,
    ensurePrinterAvailable_miss st t env.enumResult hmiss]
  constructor
  · by_cases hany :
      (refreshPrinters st env.enumResult).1.printers.any (fun p => p.name == t) = false
    · rw [if_pos hany]
      exact refreshPrinters_enum_count st env.enumResult hw
    · rw [if_neg hany]
      rcases printPipeline_effs_shape (refreshPrinters st env.enumResult).1 fs t
        (copiesOption req.copies) env.dl env.printOutcome
        (refreshPrinters st env.enumResult).2 with ⟨tail, heq, hnt, _⟩
      rw [heq, List.count_append, refreshPrinters_enum_count st env.enumResult hw,
        List.count_eq_zero.mpr hnt]
  · intro hstill
    have hany :
        (refreshPrinters st env.enumResult).1.printers.any (fun p => p.name == t) = false := by
      cases henv : env.enumResult with
      | error m =>
        rw [refreshPrinters_error_eq st m hw]
        exact hmiss
      | ok l =>
        rw [refreshPrinters_ok_eq st l hw, refreshAutoSelect_printers]
        exact hstill l henv
    rw [if_pos hany]
    exact ⟨rfl, rfl, refreshPrinters_no_download st env.enumResult, rfl⟩

/-- Witness for C2: requesting the uncached printer "Ghost" while the
refresh finds only "Office" yields a 404 after exactly one enumeration,
with no download attempt. -/
theorem absent_printer_single_refresh_404_witness :
    (printHandler stW fsW reqGhost envOk).2.2.2.count Effect.enumeratePrinters = 1 ∧
    (printHandler stW fsW reqGhost envOk).1.status = 404 ∧
    Effect.downloadAttempt ∉ (printHandler stW fsW reqGhost envOk).2.2.2 := by
  have h := absent_printer_single_refresh_404 stW fsW reqGhost envOk
    "https://files.test/a.pdf" "Ghost" (by decide) rfl (by decide) (by decide)
    (by decide) (by decide) (by decide)
  have h2 := h.2 (by intro l hl; cases hl; decide)
  exact ⟨h.1, h2.1, h2.2.2.1⟩

/-- Shape of a successful `downloadPdf`: the task points into the fresh
temporary directory, which now exists. -/
theorem downloadPdf_ok_shape (env : DownloadEnv) (fs : Fs) (task : DownloadTask)
    (h : (downloadPdf env fs).1 = Except.ok task) :
    task.tempDir = env.tempName ∧
      downloadPdf env fs = (Except.ok task, { dirs := env.tempName :: fs.dirs }) := by
  obtain ⟨fa, fo, tn, mf, wf⟩ := env
  cases fa
  · simp [downloadPdf] at h
  · cases fo with
    | error m => simp [downloadPdf] at h
    | ok r =>
      by_cases hok : responseOk r = true
      · by_cases hb : r.body = []
        · simp [downloadPdf, hok, hb] at h
        · cases mf with
          | some m => simp [downloadPdf, hok, hb] at h
          | none =>
            cases wf with
            | some m => simp [downloadPdf, hok, hb] at h
            | none =>
              simp [downloadPdf, hok, hb] at h
              subst h
              exact ⟨rfl, by simp [downloadPdf, hok, hb]⟩
      · simp [downloadPdf, hok] at h

/-- Claim C1: whenever the document fetch of a `/print` request would
succeed (its fresh temporary directory name not previously existing), that
directory no longer exists once the handler finishes — the cleanup runs
after the print attempt whether printing succeeds or fails. -/
theorem cleanup_always_removes_tempdir (st : AppState) (fs : Fs) (req : PrintReq)
    (env : PrintEnv) (task : DownloadTask)
    (hfresh : env.dl.tempName ∉ fs.dirs)
    (hok : (downloadPdf env.dl fs).1 = Except.ok task) :
    task.tempDir ∉ (printHandler st fs req env).2.2.1.dirs := by
  obtain ⟨htd, hpair⟩ := downloadPdf_ok_shape env.dl fs task hok
  rw [← htd] at hfresh hpair
  cases hreq : req.url with
  | none =>
    unfold printHandler
    rw [hreq]
    exact hfresh
  | some v =>
    cases v with
    | jnull =>
      unfold printHandler
      rw [hreq]
      exact hfresh
    | jnum n =>
      unfold printHandler
      rw [hreq]
      exact hfresh
    | jbool b =>
      unfold printHandler
      rw [hreq]
      exact hfresh
    | jstr u =>
      by_cases hu : u = ""
      · subst hu
        unfold printHandler
        rw [hreq]
        exact hfresh
      · by_cases hhttp : isHttpUrl (jsTrim u) = false
        · unfold printHandler
          rw [hreq]
          simp only [hu]
          rw [if_neg (by exact id), if_pos hhttp]
          exact hfresh
        · have hhttp' : isHttpUrl (jsTrim u) = true := by
            revert hhttp; cases isHttpUrl (jsTrim u) <;> simp
          rw [printHandler_valid_eq st fs req env u hreq hu hhttp']
          by_cases hres : resolveTargetPrinter req.printerName st.selectedPrinter = ""
          · rw [if_pos hres]
            exact hfresh
          · rw [if_neg hres]
            by_cases hava : (ensurePrinterAvailable st
                (resolveTargetPrinter req.printerName st.selectedPrinter) env.enumResult).1 = false
            · rw [if_pos hava]
              exact hfresh
            · rw [if_neg hava]
              unfold printPipeline
              rw [hpair]
              cases env.printOutcome with
              | ok _ => simp [cleanupRm]
              | error m => simp [cleanupRm]

/-- Witness for C1: a successful download followed by a failed print still
leaves the filesystem without the request's temporary directory. -/
theorem cleanup_always_removes_tempdir_witness :
    (downloadPdf envPrintFail.dl fsW).1 =
      Except.ok { filePath := "printer-ws-1/document.pdf", tempDir := "printer-ws-1" } ∧
    "printer-ws-1" ∉ (printHandler stW fsW reqOk envPrintFail).2.2.1.dirs := by
  refine ⟨rfl, ?_⟩
  exact cleanup_always_removes_tempdir stW fsW reqOk envPrintFail
    { filePath := "printer-ws-1/document.pdf", tempDir := "printer-ws-1" }
    (by decide) rfl

/-- The availability check never submits to the print capability. -/
theorem ensurePrinterAvailable_no_printSubmit (st : AppState) (t : String)
    (er : Except String (List Printer)) (p : String) (c : Option Int) :
    Effect.printSubmit p c ∉ (ensurePrinterAvailable st t er).2.2 := by
  unfold ensurePrinterAvailable
  split
  · simp
  · exact refreshPrinters_no_printSubmit st er p c

/-- The pipeline's HTTP response does not depend on the `copies` option or
on the effects accumulated before it. -/
theorem printPipeline_resp_eq (st1 : AppState) (fs : Fs) (t : String) (co co2 : Option Int)
    (dl : DownloadEnv) (pr : Except String Unit) (effs effs2 : List Effect) :
    (printPipeline st1 fs t co dl pr effs).1 = (printPipeline st1 fs t co2 dl pr effs2).1 := by
  rcases h : downloadPdf dl fs with ⟨res, fs1⟩
  cases res with
  | error e => simp [printPipeline, h]
  | ok task => cases pr <;> simp [printPipeline, h]

/-- Claim C7: the `copies` option handed to the print capability is always
the normalized value — present exactly when `Number.parseInt(copies, 10)`
yields a finite positive integer (so `NaN` and the infinities from
overflowing digit strings are omitted by the `Number.isFinite` guard, as
are non-positive values) — and the `copies` field never influences whether
the request is accepted (the HTTP response is identical for any `copies`
value). -/
theorem copies_normalization (st : AppState) (fs : Fs) (req : PrintReq) (env : PrintEnv) :
    (∀ p c, Effect.printSubmit p c ∈ (printHandler st fs req env).2.2.2 →
        c = copiesOption req.copies) ∧
    (∀ n, copiesOption req.copies = some n ↔
        (parseIntJs (jsToString req.copies) = JsNum.finite n ∧ 0 < n)) ∧
    (∀ c2, (printHandler st fs { req with copies := c2 } env).1 =
        (printHandler st fs req env).1) := by
  obtain ⟨ru, rp, rc⟩ := req
  refine ⟨?_, ?_, ?_⟩
  · intro p c hmem
    cases hreq : ru with
    | none =>
      unfold printHandler at hmem
      rw [hreq] at hmem
      simp at hmem
    | some v =>
      cases v with
      | jnull =>
        unfold printHandler at hmem
        rw [hreq] at hmem
        simp at hmem
      | jnum n =>
        unfold printHandler at hmem
        rw [hreq] at hmem
        simp at hmem
      | jbool b =>
        unfold printHandler at hmem
        rw [hreq] at hmem
        simp at hmem
      | jstr u =>
        subst hreq
        by_cases hu : u = ""
        · subst hu
          unfold printHandler at hmem
          simp at hmem
        · by_cases hhttp : isHttpUrl (jsTrim u) = false
          · unfold printHandler at hmem
            simp only [hu] at hmem
            rw [if_neg (by exact id), if_pos hhttp] at hmem
            simp at hmem
          · have hhttp' : isHttpUrl (jsTrim u) = true := by
              revert hhttp; cases isHttpUrl (jsTrim u) <;> simp
            rw [printHandler_valid_eq st fs ⟨some (JVal.jstr u), rp, rc⟩ env u rfl hu hhttp']
              at hmem
            by_cases hres : resolveTargetPrinter rp st.selectedPrinter = ""
            · rw [if_pos hres] at hmem
              simp at hmem
            · rw [if_neg hres] at hmem
              by_cases hava : (ensurePrinterAvailable st
                  (resolveTargetPrinter rp st.selectedPrinter) env.enumResult).1 = false
              · rw [if_pos hava] at hmem
                exact absurd hmem (ensurePrinterAvailable_no_printSubmit st _ env.enumResult p c)
              · rw [if_neg hava] at hmem
                rcases printPipeline_effs_shape (ensurePrinterAvailable st
                    (resolveTargetPrinter rp st.selectedPrinter) env.enumResult).2.1 fs
                    (resolveTargetPrinter rp st.selectedPrinter) (copiesOption rc) env.dl
                    env.printOutcome (ensurePrinterAvailable st
                    (resolveTargetPrinter rp st.selectedPrinter) env.enumResult).2.2
                  with ⟨tail, heq, _, hsub⟩
                rw [heq] at hmem
                rcases List.mem_append.mp hmem with hmem | hmem
                · exact absurd hmem
                    (ensurePrinterAvailable_no_printSubmit st _ env.enumResult p c)
                · exact (hsub p c hmem).2
  · intro n
    unfold copiesOption
    cases hp : parseIntJs (jsToString rc) with
    | nan =>
      show (none : Option Int) = some n ↔ JsNum.nan = JsNum.finite n ∧ 0 < n
      simp
    | negInf =>
      show (none : Option Int) = some n ↔ JsNum.negInf = JsNum.finite n ∧ 0 < n
      simp
    | posInf =>
      show (none : Option Int) = some n ↔ JsNum.posInf = JsNum.finite n ∧ 0 < n
      simp
    | finite m =>
      show (if 0 < m then some m else none) = some n ↔ JsNum.finite m = JsNum.finite n ∧ 0 < n
      by_cases hm : 0 < m
      · rw [if_pos hm]
        constructor
        · intro h
          cases h
          exact ⟨rfl, hm⟩
        · intro h
          rcases h with ⟨h1, h2⟩
          cases h1
          rfl
      · rw [if_neg hm]
        constructor
        · intro h
          exact Option.noConfusion h
        · intro h
          rcases h with ⟨h1, h2⟩
          cases h1
          exact absurd h2 hm
  · intro c2
    cases hru : ru with
    | none =>
      unfold printHandler
      rfl
    | some v =>
      cases v with
      | jnull => unfold printHandler; rfl
      | jnum n => unfold printHandler; rfl
      | jbool b => unfold printHandler; rfl
      | jstr u =>
        by_cases hu : u = ""
        · subst hu
          unfold printHandler
          rfl
        · by_cases hhttp : isHttpUrl (jsTrim u) = false
          · unfold printHandler
            simp only [hu]
            rw [if_neg (by exact id), if_pos hhttp, if_neg (by exact id), if_pos hhttp]
          · have hhttp' : isHttpUrl (jsTrim u) = true := by
              revert hhttp; cases isHttpUrl (jsTrim u) <;> simp
            rw [printHandler_valid_eq st fs ⟨some (JVal.jstr u), rp, c2⟩ env u rfl hu hhttp',
              printHandler_valid_eq st fs ⟨some (JVal.jstr u), rp, rc⟩ env u rfl hu hhttp']
            by_cases hres : resolveTargetPrinter rp st.selectedPrinter = ""
            · rw [if_pos hres, if_pos hres]
            · rw [if_neg hres, if_neg hres]
              by_cases hava : (ensurePrinterAvailable st
                  (resolveTargetPrinter rp st.selectedPrinter) env.enumResult).1 = false
              · rw [if_pos hava, if_pos hava]
              · rw [if_neg hava, if_neg hava]
                exact printPipeline_resp_eq _ fs _ (copiesOption c2) (copiesOption rc)
                  env.dl env.printOutcome _ _

/-- Witness for C7: in the successful end-to-end run the print capability
observed `copies := 2` (from the request's `copies: 2`), and the response
does not change when `copies` is `"abc"`. -/
theorem copies_normalization_witness :
    (some 2 : Option Int) = copiesOption reqOk.copies ∧
    (printHandler stW fsW { reqOk with copies := some (JVal.jstr "abc") } envOk).1 =
      (printHandler stW fsW reqOk envOk).1 := by
  have h := copies_normalization stW fsW reqOk envOk
  exact ⟨h.1 "Office" (some 2) (by decide), h.2.2 (some (JVal.jstr "abc"))⟩

/-- Claim C10: if the HTTP download succeeds with a non-empty body but the
`writeFile` into the freshly created temporary directory fails, the fetch
throws without returning a cleanup handle, the handler answers 500 without
any print submission, and the already-created temporary directory is still
present afterwards — the cleanup guarantee covers only fetches that return
successfully. -/
theorem write_failure_leaks_tempdir (st : AppState) (fs : Fs) (req : PrintReq)
    (env : PrintEnv) (u m : String) (r : FetchResponse)
    (hu : req.url = some (JVal.jstr u)) (hne : u ≠ "") (hhttp : isHttpUrl (jsTrim u) = true)
    (hres : resolveTargetPrinter req.printerName st.selectedPrinter ≠ "")
    (hhit : st.printers.any
      (fun p => p.name == resolveTargetPrinter req.printerName st.selectedPrinter) = true)
    (hfa : env.dl.fetchAvailable = true)
    (hfo : env.dl.fetchOutcome = Except.ok r) (hok : responseOk r = true) (hb : r.body ≠ [])
    (hmk : env.dl.mkdtempFails = none) (hwf : env.dl.writeFails = some m) :
    (downloadPdf env.dl fs).1 = Except.error (DlError.fsError m) ∧
    (printHandler st fs req env).1.status = 500 ∧
    env.dl.tempName ∈ (printHandler st fs req env).2.2.1.dirs ∧
    (∀ p c, Effect.printSubmit p c ∉ (printHandler st fs req env).2.2.2) := by
  have hdp : downloadPdf env.dl fs =
      (Except.error (DlError.fsError m), { dirs := env.dl.tempName :: fs.dirs }) := by
    simp [downloadPdf, hfa, hfo, hok, hb, hmk, hwf]
  rw [printHandler_valid_eq st fs req env u hu hne hhttp, if_neg hres,
    ensurePrinterAvailable_hit st _ env.enumResult hhit, if_neg (by simp)]
  unfold printPipeline
  rw [hdp]
  exact ⟨rfl, rfl, by simp, by intro p c; simp⟩

/-- Witness for C10: with `writeFile` failing after a successful 200
download, the request answers 500 and the directory `printer-ws-3` is left
behind in the filesystem. -/
theorem write_failure_leaks_tempdir_witness :
    (printHandler stW fsW reqOk envWriteFail).1.status = 500 ∧
    "printer-ws-3" ∈ (printHandler stW fsW reqOk envWriteFail).2.2.1.dirs := by
  have h := write_failure_leaks_tempdir stW fsW reqOk envWriteFail
    "https://files.test/a.pdf" "EACCES" { status := 200, body := [37] }
    rfl (by decide) (by decide) (by decide) (by decide) (by decide) rfl (by decide)
    (by decide) rfl rfl
  exact ⟨h.2.1, h.2.2.1⟩
